import Mathlib

/-!
# aws/http/response.h

A shallow embedding of `aws::http::response`, the in-memory HTTP response
value object of the Lambda C++ runtime, and of `enum class response_code`.

Conventions of the embedding

* a `char` is its unsigned byte value, a `std::string` is the list of its
  bytes (it may hold NUL bytes), and a `char const*` argument is the C string
  it points to: the bytes before the terminating NUL;
* `::tolower` is the function of the "C" locale, the locale a program starts in;
* member functions that mutate `*this` take the state and return the new state;
  `const` member functions are functions of the state;
* of the allocation behaviour of `std::string` only the capacity of `m_body` is
  kept, since `append_body` reads it; how far a buffer grows when it is
  reallocated is left to the implementation by the C++ standard and is a
  parameter of the functions that append to the body.
-/

set_option maxRecDepth 8192

namespace aws
namespace http

/-! ## Strings -/

/-- One `char`, as the value of its byte. -/
abbrev char := Fin 256

/-- The type `std::string`: a sequence of bytes of known length. -/
abbrev std_string := List char

/-- A `char const*` argument, read as a NUL-terminated string: `chars` are the
bytes in front of the terminator, so none of them is NUL. -/
structure c_string where
  chars : List char
  terminated : ∀ c ∈ chars, c ≠ 0

/-- The member `std::string::c_str()` seen as a C string: a reader of the
pointer stops at the first NUL byte, whether it is the terminator or a byte of
the string itself. -/
def c_str (s : std_string) : c_string :=
  ⟨s.takeWhile (fun c => decide (c ≠ 0)), fun c hc => by
    have h := List.mem_takeWhile_imp hc
    simpa using h⟩

/-- A string literal as a `std::string` (ASCII text). -/
def lit (s : String) : std_string :=
  s.toList.map (fun c => Fin.ofNat c.toNat)

/-- A string literal passed as a `char const*`. -/
def c_lit (s : String) : c_string :=
  c_str (lit s)

/-- The C library predicate `isupper` in the "C" locale: the bytes of `A` to `Z`. -/
def isupper (c : char) : Bool :=
  decide (65 ≤ c.val ∧ c.val ≤ 90)

/-- The C library function `::tolower` in the "C" locale: an upper-case letter
is moved by `'a' - 'A' = 32`, every other byte is returned unchanged. -/
def tolower (c : char) : char :=
  if isupper c then c + 32 else c

/-- The name as `add_header` stores it: `::tolower` applied to every byte. -/
def lower (name : std_string) : std_string :=
  name.map tolower

/-! ## The status enumeration -/

/-- The scoped enumeration `response_code`. Its underlying type is `int`, and a
value of the enumeration is identified with that integer. -/
structure response_code where
  toInt : Int
  deriving DecidableEq

namespace response_code

def REQUEST_NOT_MADE : response_code := ⟨-1⟩
def CONTINUE : response_code := ⟨100⟩
def SWITCHING_PROTOCOLS : response_code := ⟨101⟩
def PROCESSING : response_code := ⟨102⟩
def OK : response_code := ⟨200⟩
def CREATED : response_code := ⟨201⟩
def ACCEPTED : response_code := ⟨202⟩
def NON_AUTHORITATIVE_INFORMATION : response_code := ⟨203⟩
def NO_CONTENT : response_code := ⟨204⟩
def RESET_CONTENT : response_code := ⟨205⟩
def PARTIAL_CONTENT : response_code := ⟨206⟩
def MULTI_STATUS : response_code := ⟨207⟩
def ALREADY_REPORTED : response_code := ⟨208⟩
def IM_USED : response_code := ⟨226⟩
def MULTIPLE_CHOICES : response_code := ⟨300⟩
def MOVED_PERMANENTLY : response_code := ⟨301⟩
def FOUND : response_code := ⟨302⟩
def SEE_OTHER : response_code := ⟨303⟩
def NOT_MODIFIED : response_code := ⟨304⟩
def USE_PROXY : response_code := ⟨305⟩
def SWITCH_PROXY : response_code := ⟨306⟩
def TEMPORARY_REDIRECT : response_code := ⟨307⟩
def PERMANENT_REDIRECT : response_code := ⟨308⟩
def BAD_REQUEST : response_code := ⟨400⟩
def UNAUTHORIZED : response_code := ⟨401⟩
def PAYMENT_REQUIRED : response_code := ⟨402⟩
def FORBIDDEN : response_code := ⟨403⟩
def NOT_FOUND : response_code := ⟨404⟩
def METHOD_NOT_ALLOWED : response_code := ⟨405⟩
def NOT_ACCEPTABLE : response_code := ⟨406⟩
def PROXY_AUTHENTICATION_REQUIRED : response_code := ⟨407⟩
def REQUEST_TIMEOUT : response_code := ⟨408⟩
def CONFLICT : response_code := ⟨409⟩
def GONE : response_code := ⟨410⟩
def LENGTH_REQUIRED : response_code := ⟨411⟩
def PRECONDITION_FAILED : response_code := ⟨412⟩
def REQUEST_ENTITY_TOO_LARGE : response_code := ⟨413⟩
def REQUEST_URI_TOO_LONG : response_code := ⟨414⟩
def UNSUPPORTED_MEDIA_TYPE : response_code := ⟨415⟩
def REQUESTED_RANGE_NOT_SATISFIABLE : response_code := ⟨416⟩
def EXPECTATION_FAILED : response_code := ⟨417⟩
def IM_A_TEAPOT : response_code := ⟨418⟩
def AUTHENTICATION_TIMEOUT : response_code := ⟨419⟩
def METHOD_FAILURE : response_code := ⟨420⟩
def UNPROC_ENTITY : response_code := ⟨422⟩
def LOCKED : response_code := ⟨423⟩
def FAILED_DEPENDENCY : response_code := ⟨424⟩
def UPGRADE_REQUIRED : response_code := ⟨426⟩
def PRECONDITION_REQUIRED : response_code := ⟨427⟩
def TOO_MANY_REQUESTS : response_code := ⟨429⟩
def REQUEST_HEADER_FIELDS_TOO_LARGE : response_code := ⟨431⟩
def LOGIN_TIMEOUT : response_code := ⟨440⟩
def NO_RESPONSE : response_code := ⟨444⟩
def RETRY_WITH : response_code := ⟨449⟩
def BLOCKED : response_code := ⟨450⟩
def REDIRECT : response_code := ⟨451⟩
def REQUEST_HEADER_TOO_LARGE : response_code := ⟨494⟩
def CERT_ERROR : response_code := ⟨495⟩
def NO_CERT : response_code := ⟨496⟩
def HTTP_TO_HTTPS : response_code := ⟨497⟩
def CLIENT_CLOSED_TO_REQUEST : response_code := ⟨499⟩
def INTERNAL_SERVER_ERROR : response_code := ⟨500⟩
def NOT_IMPLEMENTED : response_code := ⟨501⟩
def BAD_GATEWAY : response_code := ⟨502⟩
def SERVICE_UNAVAILABLE : response_code := ⟨503⟩
def GATEWAY_TIMEOUT : response_code := ⟨504⟩
def HTTP_VERSION_NOT_SUPPORTED : response_code := ⟨505⟩
def VARIANT_ALSO_NEGOTIATES : response_code := ⟨506⟩
def INSUFFICIENT_STORAGE : response_code := ⟨507⟩
def LOOP_DETECTED : response_code := ⟨508⟩
def BANDWIDTH_LIMIT_EXCEEDED : response_code := ⟨509⟩
def NOT_EXTENDED : response_code := ⟨510⟩
def NETWORK_AUTHENTICATION_REQUIRED : response_code := ⟨511⟩
def NETWORK_READ_TIMEOUT : response_code := ⟨598⟩
def NETWORK_CONNECT_TIMEOUT : response_code := ⟨599⟩

/-- The enumerators of `response_code` in the order of their declaration, each
with its name. -/
def enumerators : List (String × response_code) :=
  [("REQUEST_NOT_MADE", REQUEST_NOT_MADE), ("CONTINUE", CONTINUE),
   ("SWITCHING_PROTOCOLS", SWITCHING_PROTOCOLS), ("PROCESSING", PROCESSING), ("OK", OK),
   ("CREATED", CREATED), ("ACCEPTED", ACCEPTED),
   ("NON_AUTHORITATIVE_INFORMATION", NON_AUTHORITATIVE_INFORMATION),
   ("NO_CONTENT", NO_CONTENT), ("RESET_CONTENT", RESET_CONTENT),
   ("PARTIAL_CONTENT", PARTIAL_CONTENT), ("MULTI_STATUS", MULTI_STATUS),
   ("ALREADY_REPORTED", ALREADY_REPORTED), ("IM_USED", IM_USED),
   ("MULTIPLE_CHOICES", MULTIPLE_CHOICES), ("MOVED_PERMANENTLY", MOVED_PERMANENTLY),
   ("FOUND", FOUND), ("SEE_OTHER", SEE_OTHER), ("NOT_MODIFIED", NOT_MODIFIED),
   ("USE_PROXY", USE_PROXY), ("SWITCH_PROXY", SWITCH_PROXY),
   ("TEMPORARY_REDIRECT", TEMPORARY_REDIRECT), ("PERMANENT_REDIRECT", PERMANENT_REDIRECT),
   ("BAD_REQUEST", BAD_REQUEST), ("UNAUTHORIZED", UNAUTHORIZED),
   ("PAYMENT_REQUIRED", PAYMENT_REQUIRED), ("FORBIDDEN", FORBIDDEN), ("NOT_FOUND", NOT_FOUND),
   ("METHOD_NOT_ALLOWED", METHOD_NOT_ALLOWED), ("NOT_ACCEPTABLE", NOT_ACCEPTABLE),
   ("PROXY_AUTHENTICATION_REQUIRED", PROXY_AUTHENTICATION_REQUIRED),
   ("REQUEST_TIMEOUT", REQUEST_TIMEOUT), ("CONFLICT", CONFLICT), ("GONE", GONE),
   ("LENGTH_REQUIRED", LENGTH_REQUIRED), ("PRECONDITION_FAILED", PRECONDITION_FAILED),
   ("REQUEST_ENTITY_TOO_LARGE", REQUEST_ENTITY_TOO_LARGE),
   ("REQUEST_URI_TOO_LONG", REQUEST_URI_TOO_LONG),
   ("UNSUPPORTED_MEDIA_TYPE", UNSUPPORTED_MEDIA_TYPE),
   ("REQUESTED_RANGE_NOT_SATISFIABLE", REQUESTED_RANGE_NOT_SATISFIABLE),
   ("EXPECTATION_FAILED", EXPECTATION_FAILED), ("IM_A_TEAPOT", IM_A_TEAPOT),
   ("AUTHENTICATION_TIMEOUT", AUTHENTICATION_TIMEOUT), ("METHOD_FAILURE", METHOD_FAILURE),
   ("UNPROC_ENTITY", UNPROC_ENTITY), ("LOCKED", LOCKED),
   ("FAILED_DEPENDENCY", FAILED_DEPENDENCY), ("UPGRADE_REQUIRED", UPGRADE_REQUIRED),
   ("PRECONDITION_REQUIRED", PRECONDITION_REQUIRED), ("TOO_MANY_REQUESTS", TOO_MANY_REQUESTS),
   ("REQUEST_HEADER_FIELDS_TOO_LARGE", REQUEST_HEADER_FIELDS_TOO_LARGE),
   ("LOGIN_TIMEOUT", LOGIN_TIMEOUT), ("NO_RESPONSE", NO_RESPONSE), ("RETRY_WITH", RETRY_WITH),
   ("BLOCKED", BLOCKED), ("REDIRECT", REDIRECT),
   ("REQUEST_HEADER_TOO_LARGE", REQUEST_HEADER_TOO_LARGE), ("CERT_ERROR", CERT_ERROR),
   ("NO_CERT", NO_CERT), ("HTTP_TO_HTTPS", HTTP_TO_HTTPS),
   ("CLIENT_CLOSED_TO_REQUEST", CLIENT_CLOSED_TO_REQUEST),
   ("INTERNAL_SERVER_ERROR", INTERNAL_SERVER_ERROR), ("NOT_IMPLEMENTED", NOT_IMPLEMENTED),
   ("BAD_GATEWAY", BAD_GATEWAY), ("SERVICE_UNAVAILABLE", SERVICE_UNAVAILABLE),
   ("GATEWAY_TIMEOUT", GATEWAY_TIMEOUT),
   ("HTTP_VERSION_NOT_SUPPORTED", HTTP_VERSION_NOT_SUPPORTED),
   ("VARIANT_ALSO_NEGOTIATES", VARIANT_ALSO_NEGOTIATES),
   ("INSUFFICIENT_STORAGE", INSUFFICIENT_STORAGE), ("LOOP_DETECTED", LOOP_DETECTED),
   ("BANDWIDTH_LIMIT_EXCEEDED", BANDWIDTH_LIMIT_EXCEEDED), ("NOT_EXTENDED", NOT_EXTENDED),
   ("NETWORK_AUTHENTICATION_REQUIRED", NETWORK_AUTHENTICATION_REQUIRED),
   ("NETWORK_READ_TIMEOUT", NETWORK_READ_TIMEOUT),
   ("NETWORK_CONNECT_TIMEOUT", NETWORK_CONNECT_TIMEOUT)]

end response_code

/-! ## The result of a lookup -/

/-- Modelled from the spec: the class template `lambda_runtime::outcome` of
aws/lambda-runtime/outcome.h, which is not among the sources. A lookup gives a
success result carrying the value, or a failure result carrying the boolean
"not found" signal and no value. -/
inductive outcome (TResult TFailure : Type) where
  | success (s : TResult)
  | failure (f : TFailure)
  deriving DecidableEq

/-- The outcome holds a value. -/
def outcome.is_success {TResult TFailure : Type} : outcome TResult TFailure → Bool
  | outcome.success _ => true
  | outcome.failure _ => false

/-! ## The growth of a string buffer -/

/-- The growth of a `std::string` buffer, which the C++ standard leaves to the
implementation: `grow capacity need` is the capacity after a reallocation that
is made at capacity `capacity` and has to hold `need` bytes. All that is fixed
is that the new buffer holds what was asked for. -/
structure string_growth where
  grow : Nat → Nat → Nat
  grow_ge : ∀ capacity need : Nat, need ≤ grow capacity need

/-- The growth of the libstdc++ implementation: a request between the old
capacity and twice the old capacity is raised to twice the old capacity, any
other request is granted as it is. -/
def doubling : string_growth :=
  { grow := fun capacity need =>
      if capacity < need ∧ need < 2 * capacity then 2 * capacity else need
    grow_ge := fun capacity need => by
      show need ≤ if capacity < need ∧ need < 2 * capacity then 2 * capacity else need
      split <;> omega }

/-! ## The response object -/

/-- The data members of `class response`. `m_body_capacity` is
`m_body.capacity()`, the one allocation detail the code reads. -/
structure response where
  m_response_code : response_code
  m_headers : List (std_string × std_string)
  m_body : std_string
  m_body_capacity : Nat
  m_content_type : std_string
  deriving DecidableEq

/-- A default-constructed `response`: the three containers are empty. The class
has no constructor and no member initialiser, so the status a new object holds
and the capacity of its empty body are not fixed by the code; both are
parameters. -/
def default_constructed (c : response_code) (cap : Nat) : response :=
  { m_response_code := c, m_headers := [], m_body := [], m_body_capacity := cap,
    m_content_type := [] }

namespace response

def get_response_code (r : response) : response_code :=
  r.m_response_code

def set_response_code (r : response) (c : response_code) : response :=
  { r with m_response_code := c }

/-- The assignment `m_content_type = ct` copies the C string `ct`. -/
def set_content_type (r : response) (ct : c_string) : response :=
  { r with m_content_type := ct.chars }

def get_body (r : response) : std_string :=
  r.m_body

def get_content_type (r : response) : std_string :=
  r.m_content_type

/-- The call `std::transform(name.begin(), name.end(), name.begin(), ::tolower)`
followed by `m_headers.emplace_back(std::move(name), value)`. -/
def add_header (r : response) (name : std_string) (value : std_string) : response :=
  let name := name.map tolower
  { r with m_headers := r.m_headers ++ [(name, value)] }

/-- The constant `min_capacity` of `append_body`. -/
def min_capacity : Nat := 512

/-- The capacity after `std::string::reserve(n)` on a string of capacity
`capacity`: a request above the capacity reallocates, any other request leaves
the capacity as it is. -/
def reserve (g : string_growth) (capacity n : Nat) : Nat :=
  if capacity < n then g.grow capacity n else capacity

/-- The capacity after `std::string::append` on a string of capacity `capacity`
whose size becomes `size`: the buffer is kept when the bytes fit and
reallocated when they do not. -/
def append_capacity (g : string_growth) (capacity size : Nat) : Nat :=
  if size ≤ capacity then capacity else g.grow capacity size

/-- The call `append_body(p, sz)`; `p` stands for the `sz` bytes at the pointer
and `g` for the growth of the `std::string` implementation. -/
def append_body (r : response) (g : string_growth) (p : List char) : response :=
  let capacity :=
    if r.m_body_capacity < min_capacity then reserve g r.m_body_capacity min_capacity
    else r.m_body_capacity
  { r with m_body := r.m_body ++ p,
           m_body_capacity := append_capacity g capacity (r.m_body.length + p.length) }

/-- The predicate `p.first == header` of both lookups compares a stored
`std::string` with a C string: all bytes of the former against the bytes of the
latter up to its terminator. -/
def name_matches (header : c_string) (p : std_string × std_string) : Bool :=
  decide (p.1 = header.chars)

/-- The call `std::any_of` over `m_headers`. -/
def has_header (r : response) (header : c_string) : Bool :=
  r.m_headers.any (name_matches header)

/-- The call `std::find_if` over `m_headers`; `return false` when the iterator is
`end()`, the value of the entry found otherwise. -/
def get_header (r : response) (header : c_string) : outcome std_string Bool :=
  match r.m_headers.find? (name_matches header) with
  | none => outcome.failure false
  | some p => outcome.success p.2

end response

/-! ## Sequences of calls -/

/-- One call of a member function that changes the object. -/
inductive mutator where
  | add_header (name value : std_string)
  | append_body (p : List char)
  | set_response_code (c : response_code)
  | set_content_type (ct : c_string)

/-- The state after one such call. -/
def mutator.apply (g : string_growth) (r : response) : mutator → response
  | mutator.add_header name value => r.add_header name value
  | mutator.append_body p => r.append_body g p
  | mutator.set_response_code c => r.set_response_code c
  | mutator.set_content_type ct => r.set_content_type ct

/-- The state after a sequence of calls, made from left to right. -/
def run (g : string_growth) (r : response) (calls : List mutator) : response :=
  calls.foldl (mutator.apply g) r

/-- The name holds an ASCII upper-case letter. -/
def has_upper (s : List char) : Bool :=
  s.any isupper

/-- The number of stored entries whose name is `name`. -/
def count_named (r : response) (name : std_string) : Nat :=
  (r.m_headers.filter (fun p => decide (p.1 = name))).length

/-- No stored header name holds an ASCII upper-case letter. -/
def names_lower_case (r : response) : Prop :=
  ∀ p ∈ r.m_headers, ∀ c ∈ p.1, ¬ (65 ≤ c.val ∧ c.val ≤ 90)

theorem tolower_of_not_upper (c : char) (h : isupper c = false) : tolower c = c := by
  simp [tolower, h]

theorem tolower_val_of_upper (c : char) (h : isupper c = true) :
    (tolower c).val = c.val + 32 := by
  have h2 := h
  simp only [isupper, decide_eq_true_eq] at h2
  simp only [tolower, h, if_true, Fin.val_add]
  have : (32 : char).val = 32 := rfl
  omega

theorem isupper_tolower (c : char) : isupper (tolower c) = false := by
  by_cases h : isupper c = true
  · have hv := tolower_val_of_upper c h
    simp only [isupper, decide_eq_true_eq] at h
    simp only [isupper, decide_eq_false_iff_not]
    omega
  · rw [tolower_of_not_upper c (by simpa using h)]
    simpa using h

theorem tolower_ne_zero (c : char) (h : c ≠ 0) : tolower c ≠ 0 := by
  by_cases hu : isupper c = true
  · intro h0
    have hv := tolower_val_of_upper c hu
    rw [h0] at hv
    have : (0 : char).val = 0 := rfl
    omega
  · rw [tolower_of_not_upper c (by simpa using hu)]
    exact h

theorem tolower_tolower (c : char) : tolower (tolower c) = tolower c :=
  tolower_of_not_upper _ (isupper_tolower c)

theorem lower_length (n : std_string) : (lower n).length = n.length := by
  simp [lower]

theorem has_upper_lower (n : std_string) : has_upper (lower n) = false := by
  simp [has_upper, lower, isupper_tolower]

theorem lower_no_nul (n : std_string) (hn : ∀ c ∈ n, c ≠ 0) : ∀ c ∈ lower n, c ≠ 0 := by
  intro c hc
  obtain ⟨d, hd, rfl⟩ := List.mem_map.mp hc
  exact tolower_ne_zero d (hn d hd)

theorem c_str_chars_of_no_nul (s : std_string) (hs : ∀ c ∈ s, c ≠ 0) :
    (c_str s).chars = s := by
  simp only [c_str]
  exact List.takeWhile_eq_self_iff.mpr (fun c hc => by simpa using hs c hc)

theorem c_str_lower_chars (n : std_string) (hn : ∀ c ∈ n, c ≠ 0) :
    (c_str (lower n)).chars = lower n :=
  c_str_chars_of_no_nul _ (lower_no_nul n hn)

/-! ## Lookups -/

namespace response

theorem add_header_headers (r : response) (n v : std_string) :
    (r.add_header n v).m_headers = r.m_headers ++ [(lower n, v)] := rfl

theorem has_header_iff (r : response) (q : c_string) :
    r.has_header q = true ↔ ∃ p ∈ r.m_headers, p.1 = q.chars := by
  simp [has_header, name_matches]

theorem has_header_eq_false_iff (r : response) (q : c_string) :
    r.has_header q = false ↔ ∀ p ∈ r.m_headers, p.1 ≠ q.chars := by
  simp [has_header, name_matches]

theorem get_header_of_has_header_false (r : response) (q : c_string)
    (h : r.has_header q = false) : r.get_header q = outcome.failure false := by
  have hnone : r.m_headers.find? (name_matches q) = none := by
    rw [List.find?_eq_none]
    intro p hp hm
    have := (has_header_eq_false_iff r q).mp h p hp
    exact this (by simpa [name_matches] using hm)
  simp [get_header, hnone]

theorem get_header_of_first (r : response) (q : c_string)
    (pre post : List (std_string × std_string)) (v : std_string)
    (hsplit : r.m_headers = pre ++ (q.chars, v) :: post)
    (hpre : ∀ p ∈ pre, p.1 ≠ q.chars) : r.get_header q = outcome.success v := by
  have hnone : pre.find? (name_matches q) = none := by
    rw [List.find?_eq_none]
    intro p hp hm
    exact hpre p hp (by simpa [name_matches] using hm)
  simp [get_header, hsplit, List.find?_append, hnone, name_matches]

theorem has_header_add_header (r : response) (n v : std_string) (q : c_string) :
    (r.add_header n v).has_header q = (r.has_header q || decide (lower n = q.chars)) := by
  simp [has_header, add_header_headers, name_matches]

theorem get_header_add_header_of_has (r : response) (n v : std_string) (q : c_string)
    (h : r.has_header q = true) : (r.add_header n v).get_header q = r.get_header q := by
  obtain ⟨p, hp, hm⟩ := (has_header_iff r q).mp h
  have hsome : (r.m_headers.find? (name_matches q)).isSome = true := by
    rw [List.find?_isSome]
    exact ⟨p, hp, by simpa [name_matches] using hm⟩
  obtain ⟨e, he⟩ := Option.isSome_iff_exists.mp hsome
  simp [get_header, add_header_headers, List.find?_append, he]

theorem get_header_add_header_of_not_has (r : response) (n v : std_string) (q : c_string)
    (h : r.has_header q = false) (hq : q.chars = lower n) :
    (r.add_header n v).get_header q = outcome.success v := by
  refine get_header_of_first _ q r.m_headers [] v ?_ ((has_header_eq_false_iff r q).mp h)
  rw [add_header_headers, hq]

end response

/-! ## States reached by calls -/

theorem headers_apply (g : string_growth) (r : response) (m : mutator) :
    (m.apply g r).m_headers = r.m_headers ∨
      ∃ n v, (m.apply g r).m_headers = r.m_headers ++ [(lower n, v)] := by
  cases m with
  | add_header n v => exact Or.inr ⟨n, v, rfl⟩
  | append_body p => exact Or.inl rfl
  | set_response_code c => exact Or.inl rfl
  | set_content_type ct => exact Or.inl rfl

theorem stored_names_lower_apply (g : string_growth) (r : response) (m : mutator)
    (h : ∀ p ∈ r.m_headers, has_upper p.1 = false) :
    ∀ p ∈ (m.apply g r).m_headers, has_upper p.1 = false := by
  intro p hp
  rcases headers_apply g r m with he | ⟨n, v, he⟩
  · rw [he] at hp
    exact h p hp
  · rw [he, List.mem_append, List.mem_singleton] at hp
    rcases hp with hp | rfl
    · exact h p hp
    · exact has_upper_lower n

theorem stored_names_lower_run (g : string_growth) (calls : List mutator) (r : response)
    (h : ∀ p ∈ r.m_headers, has_upper p.1 = false) :
    ∀ p ∈ (run g r calls).m_headers, has_upper p.1 = false := by
  induction calls generalizing r with
  | nil => exact h
  | cons m rest ih => exact ih (m.apply g r) (stored_names_lower_apply g r m h)

theorem stored_names_lower_reachable (g : string_growth) (c : response_code) (cap : Nat)
    (calls : List mutator) :
    ∀ p ∈ (run g (default_constructed c cap) calls).m_headers, has_upper p.1 = false :=
  stored_names_lower_run g calls _ (fun p hp => by simp [default_constructed] at hp)

theorem count_named_add_header (r : response) (n v name : std_string) :
    count_named (r.add_header n v) name =
      count_named r name + (if lower n = name then 1 else 0) := by
  simp only [count_named, response.add_header_headers, List.filter_append, List.length_append]
  by_cases h : lower n = name <;> simp [List.filter, h]

theorem count_named_eq_zero (r : response) (name : std_string)
    (h : ∀ p ∈ r.m_headers, p.1 ≠ name) : count_named r name = 0 := by
  simp only [count_named, List.length_eq_zero, List.filter_eq_nil_iff]
  intro p hp
  simpa using h p hp

theorem has_upper_eq_false_iff (s : List char) :
    has_upper s = false ↔ ∀ c ∈ s, ¬ (65 ≤ c.val ∧ c.val ≤ 90) := by
  simp [has_upper, isupper]

theorem names_lower_case_iff (r : response) :
    names_lower_case r ↔ ∀ p ∈ r.m_headers, has_upper p.1 = false := by
  simp only [names_lower_case, has_upper_eq_false_iff]

theorem names_lower_case_apply (g : string_growth) (r : response) (m : mutator)
    (h : names_lower_case r) : names_lower_case (m.apply g r) :=
  (names_lower_case_iff _).mpr
    (stored_names_lower_apply g r m ((names_lower_case_iff r).mp h))

theorem body_apply (g : string_growth) (r : response) (m : mutator) :
    ∃ t, (m.apply g r).m_body = r.m_body ++ t := by
  cases m with
  | add_header n v => exact ⟨[], (List.append_nil _).symm⟩
  | append_body p => exact ⟨p, rfl⟩
  | set_response_code c => exact ⟨[], (List.append_nil _).symm⟩
  | set_content_type ct => exact ⟨[], (List.append_nil _).symm⟩

theorem has_header_of_get_header_success (r : response) (q : c_string) (v : std_string)
    (h : r.get_header q = outcome.success v) : r.has_header q = true := by
  cases hh : r.has_header q with
  | true => rfl
  | false =>
    rw [response.get_header_of_has_header_false r q hh] at h
    exact outcome.noConfusion h

theorem get_header_of_headers_eq (r s : response) (q : c_string)
    (h : s.m_headers = r.m_headers) : s.get_header q = r.get_header q := by
  simp [response.get_header, h]

theorem has_header_of_headers_eq (r s : response) (q : c_string)
    (h : s.m_headers = r.m_headers) : s.has_header q = r.has_header q := by
  simp [response.has_header, h]

theorem lower_lower (n : std_string) : lower (lower n) = lower n := by
  simp [lower, tolower_tolower]

/-! ## Claims -/

/-- C1 (as stated, refuted): a `std::string` name may hold a NUL byte while a
lookup takes a `char const*`. After `add_header("a\0b", "v")` on a new response
the stored name is the three bytes `a`, NUL, `b`; the lookup with the lowered
name reads `a` and stops, and `has_header` is false. -/
theorem C1_nul_name_not_found :
    ((default_constructed response_code.OK 15).add_header [97, 0, 98] (lit "v")).has_header
      (c_str (lower [97, 0, 98])) = false := by
  decide

/-- C1 (amended): for every response state, every header name without a NUL
byte and every value, after `add_header(n, v)` the lookup `has_header(lower(n))`
is true. -/
theorem C1_has_header_after_add_header (r : response) (n v : std_string)
    (hn : ∀ c ∈ n, c ≠ 0) :
    (r.add_header n v).has_header (c_str (lower n)) = true := by
  rw [response.has_header_add_header, c_str_lower_chars n hn]
  simp

/-- C1 (amended), at the name `Content-Length` on a new response. -/
theorem C1_has_header_after_add_header_witness :
    (∀ c ∈ lit "Content-Length", c ≠ 0) ∧
    ((default_constructed response_code.OK 15).add_header (lit "Content-Length")
        (lit "10")).has_header (c_str (lower (lit "Content-Length"))) = true :=
  ⟨by decide, C1_has_header_after_add_header _ _ _ (by decide)⟩

/-- C2 (as stated, refuted): the claim covers states that already hold headers,
and a lookup returns the first match. On a response that already holds the
header `x-a` with value `1`, after `add_header("x-a", "2")` the lookup
`get_header("x-a")` returns `1`, not `2`. Apart from that, a name with a NUL
byte is not found by the lowered name at all. -/
theorem C2_earlier_entry_returned :
    (((default_constructed response_code.OK 15).add_header (lit "x-a") (lit "1")).add_header
        (lit "x-a") (lit "2")).get_header (c_str (lower (lit "x-a")))
      = outcome.success (lit "1") ∧
    (((default_constructed response_code.OK 15).add_header (lit "x-a") (lit "1")).add_header
        (lit "x-a") (lit "2")).get_header (c_str (lower (lit "x-a")))
      ≠ outcome.success (lit "2") ∧
    ((default_constructed response_code.OK 15).add_header [97, 0, 98] (lit "2")).get_header
        (c_str (lower [97, 0, 98]))
      = outcome.failure false := by
  decide

/-- C2 (amended): for every response state that holds no header named
`lower(n)`, every header name `n` without a NUL byte and every value `v`, after
`add_header(n, v)` the lookup `get_header(lower(n))` returns the success outcome
carrying exactly `v`. -/
theorem C2_get_header_after_add_header (r : response) (n v : std_string)
    (hn : ∀ c ∈ n, c ≠ 0) (hr : ∀ p ∈ r.m_headers, p.1 ≠ lower n) :
    (r.add_header n v).get_header (c_str (lower n)) = outcome.success v := by
  apply response.get_header_add_header_of_not_has
  · rw [response.has_header_eq_false_iff, c_str_lower_chars n hn]
    exact hr
  · exact c_str_lower_chars n hn

/-- C2 (amended), on a response that holds another header. -/
theorem C2_get_header_after_add_header_witness :
    (∀ c ∈ lit "X-Request-Id", c ≠ 0) ∧
    (∀ p ∈ ((default_constructed response_code.OK 15).add_header (lit "Host")
        (lit "example")).m_headers, p.1 ≠ lower (lit "X-Request-Id")) ∧
    (((default_constructed response_code.OK 15).add_header (lit "Host")
        (lit "example")).add_header (lit "X-Request-Id") (lit "AbC")).get_header
          (c_str (lower (lit "X-Request-Id"))) = outcome.success (lit "AbC") :=
  ⟨by decide, by decide, C2_get_header_after_add_header _ _ _ (by decide) (by decide)⟩

/-- C3: in every response built from a new one by calls of `add_header`,
`append_body`, `set_response_code` and `set_content_type`, a query name with an
ASCII upper-case letter is not found: `has_header` is false and `get_header`
is the not-found outcome. After `add_header("Content-Length", "10")` on a new
response `has_header("content-length")` is true and
`has_header("Content-Length")` is false. -/
theorem C3_upper_case_query_not_found (g : string_growth) (c : response_code) (cap : Nat)
    (calls : List mutator) (q : c_string) (hq : has_upper q.chars = true) :
    (run g (default_constructed c cap) calls).has_header q = false ∧
    (run g (default_constructed c cap) calls).get_header q = outcome.failure false ∧
    ((default_constructed c cap).add_header (lit "Content-Length") (lit "10")).has_header
        (c_lit "content-length") = true ∧
    ((default_constructed c cap).add_header (lit "Content-Length") (lit "10")).has_header
        (c_lit "Content-Length") = false := by
  have hno : (run g (default_constructed c cap) calls).has_header q = false := by
    rw [response.has_header_eq_false_iff]
    intro p hp heq
    have hl := stored_names_lower_reachable g c cap calls p hp
    rw [heq, hq] at hl
    exact Bool.noConfusion hl
  refine ⟨hno, response.get_header_of_has_header_false _ q hno, ?_, ?_⟩
  · rw [response.has_header_add_header]
    have : lower (lit "Content-Length") = (c_lit "content-length").chars := by decide
    simp [this]
  · rw [response.has_header_add_header]
    have h1 : (default_constructed c cap).has_header (c_lit "Content-Length") = false := rfl
    have h2 : lower (lit "Content-Length") ≠ (c_lit "Content-Length").chars := by decide
    simp [h1, h2]

/-- C3, at the query `Content-Length` after three calls. -/
theorem C3_upper_case_query_not_found_witness :
    has_upper (c_lit "Content-Length").chars = true ∧
    (run doubling (default_constructed response_code.OK 15)
        [mutator.add_header (lit "Content-Length") (lit "10"),
         mutator.append_body (lit "0123456789"),
         mutator.set_content_type (c_lit "text/plain")]).has_header
      (c_lit "Content-Length") = false :=
  ⟨by decide, (C3_upper_case_query_not_found _ _ _ _ _ (by decide)).1⟩

/-- C4: `add_header(n, v)` turns the stored sequence `h` into `h ++ [(lower(n), v)]`.
The stored name has the length of `n`; at each position an upper-case letter of
`n` is replaced by the byte 32 above it and any other byte is kept. The value is
`v` itself. The number of entries of every name other than `lower(n)` is
unchanged, and that of `lower(n)` grows by one whatever was stored before. -/
theorem C4_add_header_appends (r : response) (n v : std_string) :
    (r.add_header n v).m_headers = r.m_headers ++ [(lower n, v)] ∧
    (lower n).length = n.length ∧
    (∀ (i : Nat) (c : char), n[i]? = some c →
      ∃ d : char, (lower n)[i]? = some d ∧
        (isupper c = true → d.val = c.val + 32) ∧ (isupper c = false → d = c)) ∧
    (r.add_header n v).m_headers.length = r.m_headers.length + 1 ∧
    (∀ i : Nat, i < r.m_headers.length → (r.add_header n v).m_headers[i]? = r.m_headers[i]?) ∧
    count_named (r.add_header n v) (lower n) = count_named r (lower n) + 1 ∧
    (∀ name, name ≠ lower n → count_named (r.add_header n v) name = count_named r name) := by
  refine ⟨rfl, lower_length n, ?_, ?_, ?_, ?_, ?_⟩
  · intro i c hc
    refine ⟨tolower c, ?_, tolower_val_of_upper c, tolower_of_not_upper c⟩
    simp [lower, hc]
  · simp [response.add_header_headers]
  · intro i hi
    rw [response.add_header_headers, List.getElem?_append_left hi]
  · simp [count_named_add_header]
  · intro name hname
    rw [count_named_add_header, if_neg (fun h => hname h.symm)]
    rfl

/-- C5 (as stated, refuted): for the two-byte name `a`, NUL a new response holds
no header of that name, and after two calls of `add_header` two entries of that
name are stored; the lookup with the lowered name reads `a` and returns the
not-found outcome, not the first value. -/
theorem C5_nul_name_no_value :
    (∀ p ∈ (default_constructed response_code.OK 15).m_headers, p.1 ≠ lower [97, 0]) ∧
    count_named (((default_constructed response_code.OK 15).add_header [97, 0]
        (lit "1")).add_header [97, 0] (lit "2")) (lower [97, 0]) = 2 ∧
    (((default_constructed response_code.OK 15).add_header [97, 0] (lit "1")).add_header
        [97, 0] (lit "2")).get_header (c_str (lower [97, 0])) = outcome.failure false := by
  decide

/-- C5 (amended): for every response with no stored header named `lower(n)`,
every name `n` without a NUL byte and all values `v1`, `v2`, after
`add_header(n, v1)` then `add_header(n, v2)` two stored entries are named
`lower(n)` and `get_header(lower(n))` returns `v1`. In general, in any state
whose header sequence has an entry named `q` with value `v` and no entry named
`q` in front of it, `get_header(q)` returns `v`. -/
theorem C5_first_match_wins (r : response) (n v1 v2 : std_string)
    (hn : ∀ c ∈ n, c ≠ 0) (hr : ∀ p ∈ r.m_headers, p.1 ≠ lower n) :
    count_named ((r.add_header n v1).add_header n v2) (lower n) = 2 ∧
    ((r.add_header n v1).add_header n v2).get_header (c_str (lower n))
      = outcome.success v1 ∧
    (∀ (s : response) (q : c_string) (pre post : List (std_string × std_string))
        (v : std_string),
      s.m_headers = pre ++ (q.chars, v) :: post → (∀ p ∈ pre, p.1 ≠ q.chars) →
        s.get_header q = outcome.success v) := by
  refine ⟨?_, ?_, fun s q pre post v hs hpre => response.get_header_of_first s q pre post v hs hpre⟩
  · simp [count_named_add_header, count_named_eq_zero r (lower n) hr]
  · refine response.get_header_of_first _ (c_str (lower n)) r.m_headers [(lower n, v2)] v1 ?_ ?_
    · simp [response.add_header_headers, c_str_lower_chars n hn]
    · rw [c_str_lower_chars n hn]
      exact hr

/-- C5 (amended), at the name `X-A` on a response that holds another header. -/
theorem C5_first_match_wins_witness :
    (∀ c ∈ lit "X-A", c ≠ 0) ∧
    (∀ p ∈ ((default_constructed response_code.OK 15).add_header (lit "Host")
        (lit "example")).m_headers, p.1 ≠ lower (lit "X-A")) ∧
    count_named ((((default_constructed response_code.OK 15).add_header (lit "Host")
        (lit "example")).add_header (lit "X-A") (lit "1")).add_header (lit "X-A") (lit "2"))
      (lower (lit "X-A")) = 2 ∧
    ((((default_constructed response_code.OK 15).add_header (lit "Host")
        (lit "example")).add_header (lit "X-A") (lit "1")).add_header (lit "X-A")
          (lit "2")).get_header (c_str (lower (lit "X-A"))) = outcome.success (lit "1") :=
  ⟨by decide, by decide,
    (C5_first_match_wins _ _ _ _ (by decide) (by decide)).1,
    (C5_first_match_wins _ _ _ _ (by decide) (by decide)).2.1⟩

/-- C6: `get_header(q)` returns the not-found outcome exactly when no stored
name equals `q`, that is exactly when `has_header(q)` is false, and then it is no
success outcome; when `has_header(q)` is true it returns a success outcome that
carries the value of a stored entry named `q`. The only failure outcome it
returns is the one carrying `false`. -/
theorem C6_get_header_not_found_iff (r : response) (q : c_string) :
    (r.get_header q = outcome.failure false ↔ ∀ p ∈ r.m_headers, p.1 ≠ q.chars) ∧
    (r.get_header q = outcome.failure false ↔ r.has_header q = false) ∧
    (r.has_header q = true →
      ∃ p ∈ r.m_headers, p.1 = q.chars ∧ r.get_header q = outcome.success p.2) ∧
    (r.has_header q = false → ∀ v, r.get_header q ≠ outcome.success v) ∧
    (∀ f, r.get_header q = outcome.failure f → f = false) := by
  have key : r.has_header q = true →
      ∃ p ∈ r.m_headers, p.1 = q.chars ∧ r.get_header q = outcome.success p.2 := by
    intro h
    obtain ⟨p, hp, hm⟩ := (response.has_header_iff r q).mp h
    have hsome : (r.m_headers.find? (response.name_matches q)).isSome = true := by
      rw [List.find?_isSome]
      exact ⟨p, hp, by simpa [response.name_matches] using hm⟩
    obtain ⟨e, he⟩ := Option.isSome_iff_exists.mp hsome
    refine ⟨e, List.mem_of_find?_eq_some he, ?_, ?_⟩
    · simpa [response.name_matches] using List.find?_some he
    · simp [response.get_header, he]
  have iff2 : r.get_header q = outcome.failure false ↔ r.has_header q = false := by
    constructor
    · intro hf
      cases hh : r.has_header q with
      | false => rfl
      | true =>
        obtain ⟨p, _, _, hg⟩ := key hh
        rw [hg] at hf
        exact outcome.noConfusion hf
    · exact response.get_header_of_has_header_false r q
  refine ⟨?_, iff2, key, ?_, ?_⟩
  · rw [iff2, response.has_header_eq_false_iff]
  · intro h v hv
    rw [response.get_header_of_has_header_false r q h] at hv
    exact outcome.noConfusion hv
  · intro f hf
    cases hh : r.has_header q with
    | false =>
      rw [response.get_header_of_has_header_false r q hh] at hf
      exact (outcome.failure.inj hf).symm
    | true =>
      obtain ⟨p, _, _, hg⟩ := key hh
      rw [hg] at hf
      exact outcome.noConfusion hf

/-- C8: for every response and every status `c`, the sentinel `REQUEST_NOT_MADE`
included, after `set_response_code(c)` the call `get_response_code()` returns
`c` whatever the status was before; after two calls it returns the second
status. -/
theorem C8_response_code_round_trip (r : response) (c c1 c2 : response_code) :
    (r.set_response_code c).get_response_code = c ∧
    ((r.set_response_code c1).set_response_code c2).get_response_code = c2 ∧
    (r.set_response_code response_code.REQUEST_NOT_MADE).get_response_code
      = response_code.REQUEST_NOT_MADE ∧
    (r.set_response_code response_code.NOT_FOUND).get_response_code.toInt = 404 :=
  ⟨rfl, rfl, rfl, rfl⟩

/-- C9: `set_content_type(ct)` leaves the stored header sequence unchanged, so
`has_header(q)` and `get_header(q)` give the same result before and after for
every `q`, the name `content-type` included; and `add_header(n, v)` leaves
`get_content_type()` unchanged, also for the name `Content-Type`. -/
theorem C9_content_type_independent_of_headers (r : response) (ct q : c_string)
    (n v : std_string) :
    (r.set_content_type ct).m_headers = r.m_headers ∧
    (r.set_content_type ct).has_header q = r.has_header q ∧
    (r.set_content_type ct).get_header q = r.get_header q ∧
    (r.set_content_type ct).has_header (c_lit "content-type")
      = r.has_header (c_lit "content-type") ∧
    (r.add_header n v).get_content_type = r.get_content_type ∧
    (r.add_header (lit "Content-Type") v).get_content_type = r.get_content_type :=
  ⟨rfl, rfl, rfl, rfl, rfl, rfl⟩

/-- C10: for every response and every C string `ct`, after `set_content_type(ct)`
the call `get_content_type()` returns the bytes of `ct` as they are, whatever
the content type was before; after two calls it returns the second string.
Upper-case letters are kept: `Text/HTML` is returned as `Text/HTML`. -/
theorem C10_content_type_round_trip (r : response) (ct ct1 ct2 : c_string) :
    (r.set_content_type ct).get_content_type = ct.chars ∧
    ((r.set_content_type ct1).set_content_type ct2).get_content_type = ct2.chars ∧
    (r.set_content_type (c_lit "Text/HTML")).get_content_type = lit "Text/HTML" := by
  refine ⟨rfl, rfl, ?_⟩
  show (c_lit "Text/HTML").chars = lit "Text/HTML"
  decide

/-- C11 (the code at the claim's examples): ten of the eleven enumerators named
in the claim have the registered number, and `PRECONDITION_REQUIRED` has the
value 427 where the registry has 428; no enumerator at all has the value 428. -/
theorem C11_precondition_required_is_427 :
    response_code.CONTINUE.toInt = 100 ∧ response_code.OK.toInt = 200 ∧
    response_code.NOT_MODIFIED.toInt = 304 ∧ response_code.NOT_FOUND.toInt = 404 ∧
    response_code.IM_A_TEAPOT.toInt = 418 ∧ response_code.UPGRADE_REQUIRED.toInt = 426 ∧
    response_code.TOO_MANY_REQUESTS.toInt = 429 ∧
    response_code.REQUEST_HEADER_FIELDS_TOO_LARGE.toInt = 431 ∧
    response_code.INTERNAL_SERVER_ERROR.toInt = 500 ∧
    response_code.NETWORK_AUTHENTICATION_REQUIRED.toInt = 511 ∧
    response_code.PRECONDITION_REQUIRED.toInt = 427 ∧
    response_code.PRECONDITION_REQUIRED.toInt ≠ 428 ∧
    ("PRECONDITION_REQUIRED", response_code.PRECONDITION_REQUIRED)
      ∈ response_code.enumerators ∧
    (∀ e ∈ response_code.enumerators, e.2.toInt ≠ 428) := by
  decide

/-- C12: `REQUEST_NOT_MADE` has the value -1; every other enumerator of
`response_code` has a value from 100 to 599, so `REQUEST_NOT_MADE` is the only
one of the 75 enumerators outside that range. -/
theorem C12_response_code_range :
    response_code.REQUEST_NOT_MADE.toInt = -1 ∧
    response_code.enumerators.length = 75 ∧
    ("REQUEST_NOT_MADE", response_code.REQUEST_NOT_MADE) ∈ response_code.enumerators ∧
    (∀ e ∈ response_code.enumerators, e.1 ≠ "REQUEST_NOT_MADE" →
      100 ≤ e.2.toInt ∧ e.2.toInt ≤ 599) ∧
    (∀ e ∈ response_code.enumerators, (e.2.toInt < 100 ∨ 599 < e.2.toInt) →
      e = ("REQUEST_NOT_MADE", response_code.REQUEST_NOT_MADE)) := by
  decide

/-- C13: a default-constructed response is empty: `get_body()` and
`get_content_type()` are the empty string and no header is stored, so for every
name `has_header` is false and `get_header` is the not-found outcome. -/
theorem C13_default_constructed_empty (c : response_code) (cap : Nat) (q : c_string) :
    (default_constructed c cap).get_body = [] ∧
    (default_constructed c cap).get_content_type = [] ∧
    (default_constructed c cap).m_headers = [] ∧
    (default_constructed c cap).has_header q = false ∧
    (default_constructed c cap).get_header q = outcome.failure false :=
  ⟨rfl, rfl, rfl, rfl, rfl⟩

/-- C14: no stored header name holds an ASCII upper-case letter. This holds for a
new response, each of `add_header`, `append_body`, `set_response_code` and
`set_content_type` preserves it, and so it holds after every finite sequence of
such calls on a new response. -/
theorem C14_stored_names_lower_case (g : string_growth) (c : response_code) (cap : Nat) :
    names_lower_case (default_constructed c cap) ∧
    (∀ (r : response) (n v : std_string),
      names_lower_case r → names_lower_case (r.add_header n v)) ∧
    (∀ (r : response) (x : List char),
      names_lower_case r → names_lower_case (r.append_body g x)) ∧
    (∀ (r : response) (k : response_code),
      names_lower_case r → names_lower_case (r.set_response_code k)) ∧
    (∀ (r : response) (ct : c_string),
      names_lower_case r → names_lower_case (r.set_content_type ct)) ∧
    (∀ calls : List mutator, names_lower_case (run g (default_constructed c cap) calls)) := by
  refine ⟨?_, ?_, ?_, ?_, ?_, ?_⟩
  · intro p hp
    simp [default_constructed] at hp
  · intro r n v h
    exact names_lower_case_apply g r (mutator.add_header n v) h
  · intro r x h
    exact names_lower_case_apply g r (mutator.append_body x) h
  · intro r k h
    exact names_lower_case_apply g r (mutator.set_response_code k) h
  · intro r ct h
    exact names_lower_case_apply g r (mutator.set_content_type ct) h
  · intro calls
    exact (names_lower_case_iff _).mpr (stored_names_lower_reachable g c cap calls)

/-- C15: for every response `r` and every call of `add_header`, `append_body`,
`set_response_code` or `set_content_type` giving `r'`, the header sequence of
`r'` is that of `r` followed by further entries and the body of `r'` is that of
`r` followed by further bytes; if `has_header(q)` is true in `r` it is true in
`r'`, and if `get_header(q)` succeeds with `v` in `r` it succeeds with `v` in
`r'`. -/
theorem C15_headers_and_body_grow (g : string_growth) (r : response) (m : mutator)
    (q : c_string)
    (v : std_string) :
    (∃ t, (m.apply g r).m_headers = r.m_headers ++ t) ∧
    (∃ t, (m.apply g r).m_body = r.m_body ++ t) ∧
    (r.has_header q = true → (m.apply g r).has_header q = true) ∧
    (r.get_header q = outcome.success v → (m.apply g r).get_header q = outcome.success v) := by
  have hh : (∃ t, (m.apply g r).m_headers = r.m_headers ++ t) := by
    rcases headers_apply g r m with he | ⟨n, w, he⟩
    · exact ⟨[], by rw [he, List.append_nil]⟩
    · exact ⟨[(lower n, w)], he⟩
  refine ⟨hh, body_apply g r m, ?_, ?_⟩
  · intro h
    obtain ⟨t, ht⟩ := hh
    obtain ⟨p, hp, hm⟩ := (response.has_header_iff r q).mp h
    rw [response.has_header_iff]
    exact ⟨p, by rw [ht]; exact List.mem_append_left t hp, hm⟩
  · intro h
    rcases headers_apply g r m with he | ⟨n, w, he⟩
    · rw [get_header_of_headers_eq r (m.apply g r) q he]
      exact h
    · have e1 : (m.apply g r).get_header q = (r.add_header n w).get_header q :=
        get_header_of_headers_eq (r.add_header n w) (m.apply g r) q he
      rw [e1, response.get_header_add_header_of_has r n w q
        (has_header_of_get_header_success r q v h)]
      exact h

/-- C16: each mutator changes only its own member: `set_response_code` leaves
headers, body and content type unchanged; `set_content_type` leaves status,
headers and body unchanged; `add_header` leaves status, body and content type
unchanged; `append_body` leaves status, headers and content type unchanged.
The accessors are `const` member functions that only read members; they are
functions of the state and return no new state, and a state differing from `r`
in other members only gives them the same results. -/
theorem C16_mutators_change_own_member (g : string_growth) (r : response)
    (k : response_code)
    (ct q : c_string) (n v : std_string) (x : List char) :
    ((r.set_response_code k).m_headers = r.m_headers ∧
      (r.set_response_code k).get_body = r.get_body ∧
      (r.set_response_code k).m_body_capacity = r.m_body_capacity ∧
      (r.set_response_code k).get_content_type = r.get_content_type) ∧
    ((r.set_content_type ct).get_response_code = r.get_response_code ∧
      (r.set_content_type ct).m_headers = r.m_headers ∧
      (r.set_content_type ct).get_body = r.get_body ∧
      (r.set_content_type ct).m_body_capacity = r.m_body_capacity) ∧
    ((r.add_header n v).get_response_code = r.get_response_code ∧
      (r.add_header n v).get_body = r.get_body ∧
      (r.add_header n v).m_body_capacity = r.m_body_capacity ∧
      (r.add_header n v).get_content_type = r.get_content_type) ∧
    ((r.append_body g x).get_response_code = r.get_response_code ∧
      (r.append_body g x).m_headers = r.m_headers ∧
      (r.append_body g x).get_content_type = r.get_content_type) ∧
    ((r.set_response_code k).has_header q = r.has_header q ∧
      (r.set_response_code k).get_header q = r.get_header q ∧
      (r.append_body g x).has_header q = r.has_header q ∧
      (r.append_body g x).get_header q = r.get_header q) ∧
    (r.set_response_code k = { r with m_response_code := k } ∧
      r.set_content_type ct = { r with m_content_type := ct.chars } ∧
      r.add_header n v = { r with m_headers := r.m_headers ++ [(lower n, v)] }) :=
  ⟨⟨rfl, rfl, rfl, rfl⟩, ⟨rfl, rfl, rfl, rfl⟩, ⟨rfl, rfl, rfl, rfl⟩, ⟨rfl, rfl, rfl⟩,
    ⟨rfl, rfl, rfl, rfl⟩, ⟨rfl, rfl, rfl⟩⟩

/-- C18: lowering a name twice is lowering it once, and for every response, all
names `n`, `m` with `lower(n) = lower(m)` and every value `v`, `add_header(n, v)`
and `add_header(m, v)` give the same response state; in particular
`add_header(n, v)` and `add_header(lower(n), v)` give the same state, so every
accessor returns the same on both. -/
theorem C18_add_header_up_to_case (r : response) (n m v : std_string) (q : c_string)
    (h : lower n = lower m) :
    lower (lower n) = lower n ∧
    r.add_header n v = r.add_header m v ∧
    r.add_header n v = r.add_header (lower n) v ∧
    (r.add_header n v).has_header q = (r.add_header (lower n) v).has_header q ∧
    (r.add_header n v).get_header q = (r.add_header (lower n) v).get_header q := by
  have e1 : r.add_header n v = r.add_header m v := by
    show ({ r with m_headers := r.m_headers ++ [(lower n, v)] } : response)
      = { r with m_headers := r.m_headers ++ [(lower m, v)] }
    rw [h]
  have e2 : r.add_header n v = r.add_header (lower n) v := by
    show ({ r with m_headers := r.m_headers ++ [(lower n, v)] } : response)
      = { r with m_headers := r.m_headers ++ [(lower (lower n), v)] }
    rw [lower_lower]
  exact ⟨lower_lower n, e1, e2, by rw [e2], by rw [e2]⟩

/-- C18, at the names `Content-Type` and `CONTENT-TYPE`. -/
theorem C18_add_header_up_to_case_witness :
    lower (lit "Content-Type") = lower (lit "CONTENT-TYPE") ∧
    (default_constructed response_code.OK 15).add_header (lit "Content-Type") (lit "a/b")
      = (default_constructed response_code.OK 15).add_header (lit "CONTENT-TYPE")
          (lit "a/b") :=
  ⟨by decide,
    (C18_add_header_up_to_case (default_constructed response_code.OK 15)
      (lit "Content-Type") (lit "CONTENT-TYPE") (lit "a/b") (c_lit "content-type")
      (by decide)).2.1⟩

end http
end aws
